import Mathlib

/-!
Verification of the RFID scanner core in src/src/components/RFIDScanner.tsx.

The development shallowly embeds the connection state machine, the chunk
decoding path (processRFIDData, startReading), the manual entry path
(handleManualInput), the clear operation (clearRFID) and the teardown
(disconnectRFIDReader).  JavaScript strings are modelled as Lean strings
acting through their character lists; the toast sink is modelled as a list
of Toast records and the onRFIDDetected event sink as a list of the exact
string payloads the component passes to it.
-/

/-- Character class of the regexes [A-Fa-f0-9] and [^A-Fa-f0-9] used by the
source: code points 48 to 57 are the digits 0 to 9, 65 to 70 are A to F,
97 to 102 are a to f. -/
def isHexChar (c : Char) : Bool :=
  (48 ≤ c.toNat && c.toNat ≤ 57) || (65 ≤ c.toNat && c.toNat ≤ 70) ||
    (97 ≤ c.toNat && c.toNat ≤ 102)

/-- Character class of the canonical identifier format of the specification,
uppercase hex: digits 0 to 9 and letters A to F. -/
def isUpperHexChar (c : Char) : Bool :=
  (48 ≤ c.toNat && c.toNat ≤ 57) || (65 ≤ c.toNat && c.toNat ≤ 70)

/-- White space removed by the JavaScript String.prototype.trim used in the
source: space, tab, line feed, carriage return, vertical tab, form feed,
no-break space, byte order mark, ogham space mark, the en-quad to hair-space
range, line separator, paragraph separator, narrow no-break space, medium
mathematical space and ideographic space. -/
def isJSWhitespace (c : Char) : Bool :=
  c.toNat = 32 || c.toNat = 9 || c.toNat = 10 || c.toNat = 13 || c.toNat = 11 ||
    c.toNat = 12 || c.toNat = 160 || c.toNat = 65279 || c.toNat = 5760 ||
    (8192 ≤ c.toNat && c.toNat ≤ 8202) || c.toNat = 8232 || c.toNat = 8233 ||
    c.toNat = 8239 || c.toNat = 8287 || c.toNat = 12288

/-- Uppercasing of one character as JavaScript toUpperCase acts on the Basic
Latin range exercised by this component: a lowercase ASCII letter (code
points 97 to 122) is shifted down by 32, every other character is kept. -/
def jsUpperChar (c : Char) : Char :=
  if 97 ≤ c.toNat && c.toNat ≤ 122 then Char.ofNat (c.toNat - 32) else c

/-- JavaScript trim on the character list of a string: drop white space from
the front, then from the back. -/
def jsTrimList (l : List Char) : List Char :=
  ((l.dropWhile isJSWhitespace).reverse.dropWhile isJSWhitespace).reverse

/-- JavaScript String.prototype.trim. -/
def jsTrim (s : String) : String :=
  String.mk (jsTrimList s.data)

/-- JavaScript String.prototype.toUpperCase, character by character. -/
def jsToUpperCase (s : String) : String :=
  String.mk (s.data.map jsUpperChar)

/-- The expression data.trim().replace with the class consisting of carriage
return and line feed (code points 13 and 10) from processRFIDData. -/
def cleanChunk (data : String) : String :=
  String.mk ((jsTrimList data.data).filter (fun c => !(c.toNat = 13 || c.toNat = 10)))

/-- The expression manualRFID.replace removing every character outside
[A-Fa-f0-9], bound to the variable cleanRFID in handleManualInput. -/
def cleanRFID (text : String) : String :=
  String.mk (text.data.filter isHexChar)

/-- The test of the regex rfidPattern, anchored [A-Fa-f0-9] repeated 8 to 16
times: every character is hex and the length lies between 8 and 16. -/
def rfidPatternTest (s : String) : Bool :=
  s.data.all isHexChar && 8 ≤ s.data.length && s.data.length ≤ 16

/-- Canonical identifier format of the specification: anchored uppercase hex,
8 to 16 characters. -/
def validIdentifier (s : String) : Bool :=
  s.data.all isUpperHexChar && 8 ≤ s.data.length && s.data.length ≤ 16

/-- The template literal sent to onRFIDDetected on a successful read or
manual entry: the prefix RFID, the identifier and the timestamp, colon
separated. -/
def scanPayload (id : String) (now : Nat) : String :=
  "RFID:" ++ id ++ ":" ++ toString now

/-- The four values of the rfidReaderStatus component state. -/
inductive ReaderStatus
  | ready
  | scanning
  | error
  | offline
deriving DecidableEq

/-- Variant field of a toast notification. -/
inductive ToastVariant
  | defaultVariant
  | destructive
deriving DecidableEq

/-- One toast notification: title, description and variant. -/
structure Toast where
  title : String
  description : String
  variant : ToastVariant
deriving DecidableEq

/-- The component state of RFIDScanner that the modelled operations touch:
the manualRFID input field, the rfidReaderStatus badge state, the
lastScanTime, and the presence of the stored serialPort and reader handles
(the handles themselves are opaque, only their null-ness steers control
flow). -/
structure ScannerState where
  manualRFID : String
  rfidReaderStatus : ReaderStatus
  lastScanTime : Option Nat
  serialPort : Bool
  reader : Bool
deriving DecidableEq

/-- The initial component state: empty manual field, offline status, no last
scan, no stored port or reader. -/
def initState : ScannerState :=
  { manualRFID := "", rfidReaderStatus := ReaderStatus.offline,
    lastScanTime := none, serialPort := false, reader := false }

/-- The function processRFIDData: trim the chunk and delete carriage returns
and line feeds; when at least 8 characters remain, store the formatted
payload in manualRFID, send it to onRFIDDetected, record the scan time and
toast a success message; otherwise do nothing. -/
def processRFIDData (data : String) (now : Nat) (st : ScannerState) :
    ScannerState × List String × List Toast :=
  let cleanData := cleanChunk data
  if 8 ≤ cleanData.data.length then
    let rfidData := scanPayload (jsToUpperCase cleanData) now
    ({ st with manualRFID := rfidData, lastScanTime := some now },
      [rfidData],
      [{ title := "RFID Card Read Successfully",
         description := "Card UID: " ++ jsToUpperCase cleanData,
         variant := ToastVariant.defaultVariant }])
  else
    (st, [], [])

/-- The function handleManualInput: when the trimmed manual field is truthy
(non-empty), strip non-hex characters; when the stripped string passes the
pattern test, send the formatted payload to onRFIDDetected, record the scan
time and toast success, otherwise toast the invalid-format error; a blank
field does nothing at all. -/
def handleManualInput (now : Nat) (st : ScannerState) :
    ScannerState × List String × List Toast :=
  if (jsTrim st.manualRFID).data = [] then
    (st, [], [])
  else
    let c := cleanRFID st.manualRFID
    if rfidPatternTest c then
      ({ st with lastScanTime := some now },
        [scanPayload (jsToUpperCase c) now],
        [{ title := "RFID Set Successfully",
           description := "Card UID: " ++ jsToUpperCase c,
           variant := ToastVariant.defaultVariant }])
    else
      (st, [], [{ title := "Invalid RFID Format",
                  description := "Please enter a valid hexadecimal RFID UID (8-16 characters)",
                  variant := ToastVariant.destructive }])

/-- The function clearRFID: blank the manual field, call onRFIDDetected with
the empty string and clear the last scan time. -/
def clearRFID (st : ScannerState) : ScannerState × List String × List Toast :=
  ({ st with manualRFID := "", lastScanTime := none }, [""], [])

/-- The function connectRFIDReader with the outcome of requestPort and open
abstracted into one success flag: on success store the port, set status
scanning, store the reader and toast the connected message; on failure set
status error and toast the failure message. -/
def connectRFIDReader (success : Bool) (st : ScannerState) :
    ScannerState × List Toast :=
  if success then
    ({ st with serialPort := true, rfidReaderStatus := ReaderStatus.scanning, reader := true },
      [{ title := "RFID Reader Connected",
         description := "Place an RFID card near the reader to scan.",
         variant := ToastVariant.defaultVariant }])
  else
    ({ st with rfidReaderStatus := ReaderStatus.error },
      [{ title := "Connection Failed",
         description := "Failed to connect to RFID reader. Check device connection.",
         variant := ToastVariant.destructive }])

/-- The function disconnectRFIDReader, also run on deactivation by the
isActive effect.  The whole body sits in one try block whose catch only
logs: cancel the reader then null it, close the port then null it, set
status offline; a throw from cancel or close abandons every remaining step.
The two flags say whether reader.cancel and serialPort.close throw. -/
def disconnectRFIDReader (cancelThrows closeThrows : Bool) (st : ScannerState) :
    ScannerState :=
  if st.reader then
    if cancelThrows then st
    else
      let st1 := { st with reader := false }
      if st1.serialPort then
        if closeThrows then st1
        else { st1 with serialPort := false, rfidReaderStatus := ReaderStatus.offline }
      else { st1 with rfidReaderStatus := ReaderStatus.offline }
  else
    if st.serialPort then
      if closeThrows then st
      else { st with serialPort := false, rfidReaderStatus := ReaderStatus.offline }
    else { st with rfidReaderStatus := ReaderStatus.offline }

/-- One result of reader.read() as the loop in startReading observes it.  A
chunk carries its decoded text, the clock value at processing time, and, as
trace instrumentation for the temporal claims only, whether the delivery was
handed to the loop after disconnectRFIDReader had returned (possible for a
read resolved just before cancellation); the loop body never consults that
flag, mirroring the absence of any liveness check in the source. -/
inductive ReadResult
  | chunk (data : String) (now : Nat) (afterDisconnect : Bool)
  | doneResult
  | readErrorResult
deriving DecidableEq

/-- Rewrites the instrumentation flag of every chunk of a trace. -/
def ReadResult.withAfterFlag (b : Bool) : ReadResult → ReadResult
  | ReadResult.chunk d n _ => ReadResult.chunk d n b
  | r => r

/-- The read loop of startReading over a trace of read results: process each
chunk through processRFIDData, stop silently at end of stream, stop and set
status error when a read throws. -/
def startReading (st : ScannerState) (results : List ReadResult) :
    ScannerState × List String × List Toast :=
  match results with
  | [] => (st, [], [])
  | ReadResult.doneResult :: _ => (st, [], [])
  | ReadResult.readErrorResult :: _ =>
      ({ st with rfidReaderStatus := ReaderStatus.error }, [], [])
  | ReadResult.chunk data now _ :: rest =>
      let r1 := processRFIDData data now st
      let r2 := startReading r1.1 rest
      (r2.1, r1.2.1 ++ r2.2.1, r1.2.2 ++ r2.2.2)

/-- Modelled from the specification text of section 4.3 (IdentifierValidator),
kept separate from the source functions so the two can be compared: strip
every character outside [A-Fa-f0-9], accept exactly when the stripped length
lies between 8 and 16, and on acceptance return the uppercased stripped
string. -/
def spec_validate (rawText : String) : Option String :=
  let stripped := String.mk (rawText.data.filter isHexChar)
  if 8 ≤ stripped.data.length ∧ stripped.data.length ≤ 16 then
    some (jsToUpperCase stripped)
  else
    none

/-- A character uppercased by jsUpperChar lands in the uppercase hex class
whenever it started in the hex class. -/
theorem upper_of_hex (c : Char) (h : isHexChar c = true) :
    isUpperHexChar (jsUpperChar c) = true := by
  simp only [isHexChar, Bool.or_eq_true, Bool.and_eq_true, decide_eq_true_eq] at h
  simp only [jsUpperChar]
  split
  · rename_i hcond
    simp only [Bool.and_eq_true, decide_eq_true_eq] at hcond
    have h1 : 65 ≤ c.toNat - 32 := by omega
    have h2 : c.toNat - 32 ≤ 70 := by omega
    set n := c.toNat - 32 with hdef
    clear hdef hcond h
    interval_cases n <;> decide
  · rename_i hcond
    simp only [Bool.and_eq_true, decide_eq_true_eq, not_and, not_le] at hcond
    simp only [isUpperHexChar, Bool.or_eq_true, Bool.and_eq_true, decide_eq_true_eq]
    omega

/-- No white-space character is a hex character. -/
theorem not_hex_of_ws (c : Char) (h : isJSWhitespace c = true) :
    isHexChar c = false := by
  simp only [isJSWhitespace, Bool.or_eq_true, Bool.and_eq_true, decide_eq_true_eq] at h
  simp only [isHexChar, Bool.or_eq_false_iff, Bool.and_eq_false_iff,
    decide_eq_false_iff_not, not_le]
  omega

/-- When dropWhile consumes the whole list, the predicate held everywhere. -/
theorem dropWhile_nil_all {p : Char → Bool} :
    ∀ l : List Char, l.dropWhile p = [] → ∀ x ∈ l, p x = true := by
  intro l
  induction l with
  | nil => intro _ x hx; cases hx
  | cons a t ih =>
      intro h x hx
      by_cases hpa : p a = true
      · rw [List.dropWhile_cons_of_pos hpa] at h
        rw [List.mem_cons] at hx
        rcases hx with rfl | hx
        · exact hpa
        · exact ih h x hx
      · rw [List.dropWhile_cons_of_neg hpa] at h
        cases h

/-- Every element kept by takeWhile satisfies the predicate. -/
theorem takeWhile_all {p : Char → Bool} :
    ∀ l : List Char, ∀ x ∈ l.takeWhile p, p x = true := by
  intro l
  induction l with
  | nil => intro x hx; cases hx
  | cons a t ih =>
      intro x hx
      by_cases hpa : p a = true
      · rw [List.takeWhile_cons_of_pos hpa] at hx
        rw [List.mem_cons] at hx
        rcases hx with rfl | hx
        · exact hpa
        · exact ih x hx
      · rw [List.takeWhile_cons_of_neg hpa] at hx
        cases hx

/-- When JavaScript trim leaves nothing, the whole string was white space. -/
theorem all_ws_of_trim_nil (l : List Char) (h : jsTrimList l = []) :
    ∀ x ∈ l, isJSWhitespace x = true := by
  unfold jsTrimList at h
  rw [List.reverse_eq_nil_iff] at h
  have hback : ∀ x ∈ (l.dropWhile isJSWhitespace).reverse, isJSWhitespace x = true :=
    dropWhile_nil_all _ h
  have hdrop : ∀ x ∈ l.dropWhile isJSWhitespace, isJSWhitespace x = true := by
    intro x hx
    exact hback x (List.mem_reverse.mpr hx)
  intro x hx
  rw [← List.takeWhile_append_dropWhile (p := isJSWhitespace) (l := l)] at hx
  rcases List.mem_append.mp hx with hx | hx
  · exact takeWhile_all l x hx
  · exact hdrop x hx

/-- When the trimmed manual field is blank, stripping non-hex characters
leaves the empty string. -/
theorem cleanRFID_data_nil_of_trim_nil (s : String) (h : (jsTrim s).data = []) :
    (cleanRFID s).data = [] := by
  have hws : ∀ x ∈ s.data, isJSWhitespace x = true := all_ws_of_trim_nil s.data h
  show s.data.filter isHexChar = []
  rw [List.filter_eq_nil_iff]
  intro a ha
  rw [not_hex_of_ws a (hws a ha)]
  exact Bool.false_ne_true

/-- On an already-stripped string, the pattern test reduces to the length
bounds, because every surviving character is hex by construction. -/
theorem pattern_cleanRFID_iff (s : String) :
    rfidPatternTest (cleanRFID s) = true ↔
      8 ≤ (cleanRFID s).data.length ∧ (cleanRFID s).data.length ≤ 16 := by
  simp only [rfidPatternTest, Bool.and_eq_true, decide_eq_true_eq, List.all_eq_true]
  constructor
  · rintro ⟨⟨_, h8⟩, h16⟩
    exact ⟨h8, h16⟩
  · rintro ⟨h8, h16⟩
    refine ⟨⟨?_, h8⟩, h16⟩
    intro x hx
    exact List.of_mem_filter hx

/-- Uppercasing a string that passes the pattern test yields a canonical
identifier in the sense of the specification. -/
theorem validIdentifier_jsToUpperCase (s : String) (h : rfidPatternTest s = true) :
    validIdentifier (jsToUpperCase s) = true := by
  simp only [rfidPatternTest, Bool.and_eq_true, decide_eq_true_eq, List.all_eq_true] at h
  obtain ⟨⟨hall, h8⟩, h16⟩ := h
  simp only [validIdentifier, jsToUpperCase, Bool.and_eq_true, decide_eq_true_eq,
    List.all_eq_true, List.length_map]
  refine ⟨⟨?_, h8⟩, h16⟩
  intro x hx
  obtain ⟨c, hc, rfl⟩ := List.mem_map.mp hx
  exact upper_of_hex c (hall c hc)

/-- A blank manual field makes handleManualInput a no-op. -/
theorem manual_blank (st : ScannerState) (now : Nat)
    (hT : (jsTrim st.manualRFID).data = []) :
    handleManualInput now st = (st, [], []) := by
  unfold handleManualInput
  rw [if_pos hT]

/-- A non-blank manual field failing the pattern test yields only the
invalid-format toast and changes nothing. -/
theorem manual_reject (st : ScannerState) (now : Nat)
    (hT : (jsTrim st.manualRFID).data ≠ [])
    (hP : rfidPatternTest (cleanRFID st.manualRFID) = false) :
    handleManualInput now st =
      (st, [], [{ title := "Invalid RFID Format",
                  description := "Please enter a valid hexadecimal RFID UID (8-16 characters)",
                  variant := ToastVariant.destructive }]) := by
  unfold handleManualInput
  rw [if_neg hT, if_neg (by rw [hP]; exact Bool.false_ne_true)]

/-- A manual field passing the pattern test emits exactly one formatted
payload, records the scan time and toasts success. -/
theorem manual_accept (st : ScannerState) (now : Nat)
    (hP : rfidPatternTest (cleanRFID st.manualRFID) = true) :
    handleManualInput now st =
      ({ st with lastScanTime := some now },
        [scanPayload (jsToUpperCase (cleanRFID st.manualRFID)) now],
        [{ title := "RFID Set Successfully",
           description := "Card UID: " ++ jsToUpperCase (cleanRFID st.manualRFID),
           variant := ToastVariant.defaultVariant }]) := by
  have hT : (jsTrim st.manualRFID).data ≠ [] := by
    intro hnil
    have hclean := cleanRFID_data_nil_of_trim_nil _ hnil
    have hb := (pattern_cleanRFID_iff st.manualRFID).mp hP
    rw [hclean] at hb
    simp at hb
  unfold handleManualInput
  rw [if_neg hT, if_pos hP]

/-- The acceptance of the manual entry path depends exactly on the stripped
length lying between 8 and 16, whatever the rest of the state. -/
theorem manual_sink_iff (text : String) (st : ScannerState) (now : Nat) :
    ((handleManualInput now { st with manualRFID := text }).2.1 ≠ []) ↔
      (8 ≤ (cleanRFID text).data.length ∧ (cleanRFID text).data.length ≤ 16) := by
  by_cases hP : rfidPatternTest (cleanRFID text) = true
  · rw [manual_accept _ now hP]
    exact iff_of_true (by simp) ((pattern_cleanRFID_iff text).mp hP)
  · have hP2 : rfidPatternTest (cleanRFID text) = false := by
      simpa using hP
    have hRHS : ¬(8 ≤ (cleanRFID text).data.length ∧ (cleanRFID text).data.length ≤ 16) := by
      intro hb
      exact hP ((pattern_cleanRFID_iff text).mpr hb)
    by_cases hT : (jsTrim text).data = []
    · rw [manual_blank _ now hT]
      exact iff_of_false (by simp) hRHS
    · rw [manual_reject _ now hT hP2]
      exact iff_of_false (by simp) hRHS

/-- The spec-side validator rejects exactly when the stripped length lies
outside 8 to 16. -/
theorem spec_validate_eq (text : String) :
    spec_validate text =
      if 8 ≤ (cleanRFID text).data.length ∧ (cleanRFID text).data.length ≤ 16 then
        some (jsToUpperCase (cleanRFID text))
      else none := rfl

/-- Rejection of the spec-side validator, as an iff on the stripped length. -/
theorem spec_validate_none_iff (text : String) :
    spec_validate text = none ↔
      ¬(8 ≤ (cleanRFID text).data.length ∧ (cleanRFID text).data.length ≤ 16) := by
  rw [spec_validate_eq]
  split
  · rename_i hb
    exact iff_of_false (by simp) (not_not_intro hb)
  · rename_i hb
    exact iff_of_true rfl hb

/-- C1 fails on the code: the automatic decode path emits a ScanEvent whose
identifier is ZZZZZZZZ, which does not satisfy the canonical uppercase-hex
format, because processRFIDData never strips non-hex characters. -/
theorem C1_emitted_identifier_format_cex :
    (processRFIDData "zzzzzzzz" 0 initState).2.1 = [scanPayload "ZZZZZZZZ" 0] ∧
    validIdentifier "ZZZZZZZZ" = false := by decide

/-- C1 amended: every ScanEvent emitted by the manual entry path carries an
identifier satisfying the canonical format; the automatic path only
guarantees that the identifier is the uppercased trimmed chunk of length at
least 8, which may violate the format; the clear path sends the empty
payload to the sink. -/
theorem C1_emitted_identifier_format (st : ScannerState) (now : Nat) (data : String) :
    ((handleManualInput now st).2.1 = [] ∨
      ∃ id, (handleManualInput now st).2.1 = [scanPayload id now] ∧
        validIdentifier id = true) ∧
    ((processRFIDData data now st).2.1 = [] ∨
      ((processRFIDData data now st).2.1 = [scanPayload (jsToUpperCase (cleanChunk data)) now] ∧
        8 ≤ (cleanChunk data).data.length)) ∧
    (clearRFID st).2.1 = [""] := by
  refine ⟨?_, ?_, rfl⟩
  · by_cases hP : rfidPatternTest (cleanRFID st.manualRFID) = true
    · right
      refine ⟨jsToUpperCase (cleanRFID st.manualRFID), ?_, validIdentifier_jsToUpperCase _ hP⟩
      rw [manual_accept st now hP]
    · have hP2 : rfidPatternTest (cleanRFID st.manualRFID) = false := by simpa using hP
      by_cases hT : (jsTrim st.manualRFID).data = []
      · left
        rw [manual_blank st now hT]
      · left
        rw [manual_reject st now hT hP2]
  · simp only [processRFIDData]
    split
    · rename_i hlen
      right
      exact ⟨rfl, hlen⟩
    · left
      rfl

/-- C2 fails on the code: the chunk zzzzzzzz is emitted by the automatic
path (length 8 after trimming) but rejected by the manual path and by the
spec validator (nothing survives the hex strip), so the two paths do not
apply identical acceptance criteria. -/
theorem C2_paths_equivalence_cex :
    (processRFIDData "zzzzzzzz" 0 initState).2.1 ≠ [] ∧
    (handleManualInput 0 { initState with manualRFID := "zzzzzzzz" }).2.1 = [] ∧
    spec_validate "zzzzzzzz" = none := by decide

/-- C2 amended: the manual path accepts exactly when the spec validator
returns a value (strip non-hex, length 8 to 16); the automatic path accepts
exactly when the trimmed chunk with carriage returns and line feeds removed
has length at least 8, with no hex stripping and no upper bound, so the two
acceptance criteria differ. -/
theorem C2_paths_equivalence (data text : String) (now : Nat) (st : ScannerState) :
    (((processRFIDData data now st).2.1 ≠ []) ↔ 8 ≤ (cleanChunk data).data.length) ∧
    (((handleManualInput now { st with manualRFID := text }).2.1 ≠ []) ↔
      spec_validate text ≠ none) := by
  constructor
  · simp only [processRFIDData]
    split
    · rename_i hlen
      exact iff_of_true (by simp) hlen
    · rename_i hlen
      exact iff_of_false (by simp) hlen
  · rw [manual_sink_iff text st now, Ne, spec_validate_none_iff]
    tauto

/-- C3 confirmed: manual entry accepts a field content exactly when the
characters surviving the hex strip number between 8 and 16, and the single
payload it then emits carries the uppercased stripped string as its
identifier. -/
theorem C3_manual_validation (s : String) (st : ScannerState) (now : Nat) :
    (((handleManualInput now { st with manualRFID := s }).2.1 ≠ []) ↔
      (8 ≤ (cleanRFID s).data.length ∧ (cleanRFID s).data.length ≤ 16)) ∧
    ((handleManualInput now { st with manualRFID := s }).2.1 = [] ∨
      (handleManualInput now { st with manualRFID := s }).2.1
        = [scanPayload (jsToUpperCase (cleanRFID s)) now]) := by
  refine ⟨manual_sink_iff s st now, ?_⟩
  by_cases hP : rfidPatternTest (cleanRFID s) = true
  · right
    rw [manual_accept _ now hP]
  · have hP2 : rfidPatternTest (cleanRFID s) = false := by simpa using hP
    by_cases hT : (jsTrim s).data = []
    · left
      rw [manual_blank _ now hT]
    · left
      rw [manual_reject _ now hT hP2]

/-- C4 fails on the code: after a completed disconnect from a connected
scanning state the status is offline, not ready, because
disconnectRFIDReader sets the deactivation status. -/
theorem C4_status_transitions_cex :
    (disconnectRFIDReader false false (connectRFIDReader true initState).1).rfidReaderStatus
        = ReaderStatus.offline ∧
      ReaderStatus.offline ≠ ReaderStatus.ready := by decide

/-- C4 amended: after connect succeeds the status is scanning; after a
disconnect that raises no teardown error the status is offline (the code
runs the same teardown for disconnect and deactivate), and deactivation
likewise yields offline. -/
theorem C4_status_transitions (st : ScannerState) :
    (connectRFIDReader true st).1.rfidReaderStatus = ReaderStatus.scanning ∧
    (disconnectRFIDReader false false st).rfidReaderStatus = ReaderStatus.offline := by
  obtain ⟨m, sstat, t, sp, rd⟩ := st
  refine ⟨rfl, ?_⟩
  cases rd <;> cases sp <;> rfl

/-- C5 fails on the code: clearRFID invokes the onRFIDDetected sink exactly
once, with the empty string, so the cleared state is represented in-band as
a zero-length payload. -/
theorem C5_clear_operation_cex :
    (clearRFID initState).2.1 = [""] ∧ ("" : String).data.length = 0 := by decide

/-- C5 amended: the clear operation blanks the manual field and the last
scan time and sends exactly one zero-length payload through the event sink
to represent the cleared state. -/
theorem C5_clear_operation (st : ScannerState) :
    clearRFID st = ({ st with manualRFID := "", lastScanTime := none }, [""], []) := rfl

/-- C6 fails as stated: stripping the literal manual input keeps the A of
the 5A group, so the stripped string is not 0452E92 of length 7, and the
input is accepted rather than rejected. -/
theorem C6_literal_scenario_cex :
    cleanRFID "zz-04-5A-2E-92" ≠ "0452E92" ∧
    (cleanRFID "zz-04-5A-2E-92").data.length = 8 ∧
    (handleManualInput 0 { initState with manualRFID := "zz-04-5A-2E-92" }).2.1 ≠ [] := by
  decide

/-- C6 amended: the literal manual input strips to 045A2E92 of length 8,
inside the 8 to 16 rule, so it is accepted: one payload with canonical
identifier 045A2E92 is emitted and the success toast shown, with no
invalid-format rejection. -/
theorem C6_literal_scenario :
    cleanRFID "zz-04-5A-2E-92" = "045A2E92" ∧
    handleManualInput 0 { initState with manualRFID := "zz-04-5A-2E-92" }
      = ({ initState with manualRFID := "zz-04-5A-2E-92", lastScanTime := some 0 },
         [scanPayload "045A2E92" 0],
         [{ title := "RFID Set Successfully", description := "Card UID: 045A2E92",
            variant := ToastVariant.defaultVariant }]) := by decide

/-- C7 fails on the code: the all-blank manual input fails validation in the
sense of the spec validator, yet handleManualInput returns without any
notification and without any event, silently dropping the failure. -/
theorem C7_invalid_report_cex :
    handleManualInput 0 { initState with manualRFID := " " }
        = ({ initState with manualRFID := " " }, [], []) ∧
      spec_validate " " = none := by decide

/-- C7 amended: for every manual input that is non-blank after trimming and
fails validation, the invalid-format toast is emitted, no payload reaches
the sink and the state is unchanged; blank inputs are silently ignored. -/
theorem C7_invalid_report (st : ScannerState) (now : Nat)
    (h1 : (jsTrim st.manualRFID).data ≠ [])
    (h2 : rfidPatternTest (cleanRFID st.manualRFID) = false) :
    handleManualInput now st =
      (st, [], [{ title := "Invalid RFID Format",
                  description := "Please enter a valid hexadecimal RFID UID (8-16 characters)",
                  variant := ToastVariant.destructive }]) :=
  manual_reject st now h1 h2

/-- Witness for C7 amended at the concrete non-blank, non-hex input xy. -/
theorem C7_invalid_report_witness :
    (jsTrim "xy").data ≠ [] ∧
    rfidPatternTest (cleanRFID "xy") = false ∧
    handleManualInput 0 { initState with manualRFID := "xy" }
      = ({ initState with manualRFID := "xy" }, [],
         [{ title := "Invalid RFID Format",
            description := "Please enter a valid hexadecimal RFID UID (8-16 characters)",
            variant := ToastVariant.destructive }]) :=
  ⟨by decide, by decide,
    C7_invalid_report { initState with manualRFID := "xy" } 0 (by decide) (by decide)⟩

/-- C8 fails on the code: when reader.cancel throws during disconnect from a
connected state, the catch only logs, so the status transition and the
clearing of the stored handles are skipped entirely and the state is
unchanged. -/
theorem C8_teardown_cex :
    disconnectRFIDReader true false (connectRFIDReader true initState).1
        = (connectRFIDReader true initState).1 ∧
      (connectRFIDReader true initState).1.rfidReaderStatus = ReaderStatus.scanning ∧
      (connectRFIDReader true initState).1.reader = true := by decide

/-- C8 amended: a throw-free disconnect reaches the offline status and
leaves neither reader nor port stored; but a throw from cancel, or from
close, abandons the remaining teardown and the status transition, leaving
the state exactly as it was. -/
theorem C8_teardown (st : ScannerState) (b c : Bool) :
    ((disconnectRFIDReader false false st).rfidReaderStatus = ReaderStatus.offline ∧
      (disconnectRFIDReader false false st).reader = false ∧
      (disconnectRFIDReader false false st).serialPort = false) ∧
    disconnectRFIDReader true b { st with reader := true } = { st with reader := true } ∧
    disconnectRFIDReader c true { st with reader := false, serialPort := true }
      = { st with reader := false, serialPort := true } := by
  obtain ⟨m, sstat, t, sp, rd⟩ := st
  refine ⟨?_, rfl, rfl⟩
  cases rd <;> cases sp <;> exact ⟨rfl, rfl, rfl⟩

/-- C9 fails on the code: a chunk whose read resolved just before
cancellation and whose processing runs after disconnect has returned (the
instrumentation flag set to true) is still emitted, because the loop body
has no liveness check. -/
theorem C9_no_emission_after_disconnect_cex :
    (startReading initState [ReadResult.chunk "045a2e92" 0 true]).2.1
      = [scanPayload "045A2E92" 0] := by decide

/-- C9 amended: the read loop consults no liveness flag, so its entire
output is independent of which deliveries happen after disconnect returned;
it stops only at the first done or error result, and cancellation makes
subsequent reads report done. -/
theorem C9_no_emission_after_disconnect (st : ScannerState) (results : List ReadResult)
    (b : Bool) :
    startReading st (results.map (ReadResult.withAfterFlag b)) = startReading st results ∧
    startReading st (ReadResult.doneResult :: results) = (st, [], []) := by
  refine ⟨?_, rfl⟩
  induction results generalizing st with
  | nil => rfl
  | cons r rest ih =>
      cases r with
      | chunk d n a =>
          simp only [List.map_cons, ReadResult.withAfterFlag, startReading]
          rw [ih]
      | doneResult => rfl
      | readErrorResult => rfl

/-- C10 confirmed: decoding a chunk never changes the reader status, whether
the chunk is accepted or discarded. -/
theorem C10_status_frame (data : String) (now : Nat) (st : ScannerState) :
    ((processRFIDData data now st).1).rfidReaderStatus = st.rfidReaderStatus := by
  simp only [processRFIDData]
  split <;> rfl
